import Mathlib

/-!
Verification development for the `openwebui-cli` repository: a shallow
embedding of the streaming chat response consumer (`commands/chat.py`),
the credential resolver (`config.py`, `http.py`), the response classifier
(`http.py`), the RAG search validation (`commands/rag.py`), the keyring
token deletion (`http.py`, `commands/auth.py`), and the configuration
round trip (`config.py`), together with theorems settling the claims
about those components.
-/

set_option autoImplicit false

namespace OpenWebUI

/-- Python exceptions relevant to the embedded code paths. -/
inductive PyErr where
  | indexError
  | typeError
  | keyError
  | attributeError
  | passwordDeleteError
deriving DecidableEq, Repr

/-- JSON values as produced by `json.loads`. Numbers are modelled as
integers, which covers every payload the embedded code paths inspect. -/
inductive Json where
  | null
  | bool (b : Bool)
  | num (n : Int)
  | str (s : String)
  | arr (xs : List Json)
  | obj (fields : List (String × Json))

namespace Json

/-- Python truthiness of a JSON value: `None`, `False`, `0`, `""`, `[]`
and the empty object are falsy, everything else is truthy. -/
def truthy : Json → Bool
  | .null => false
  | .bool b => b
  | .num n => n ≠ 0
  | .str s => s ≠ ""
  | .arr xs => !xs.isEmpty
  | .obj fs => !fs.isEmpty

/-- `d.get(key, default)` on a parsed JSON value: returns the field when
the value is an object, the default when the key is absent, and raises
`AttributeError` when the value is not an object (no `.get` method). -/
def dictGet (j : Json) (key : String) (default : Json) : Except PyErr Json :=
  match j with
  | .obj fields =>
    match fields.lookup key with
    | some v => .ok v
    | none => .ok default
  | _ => .error .attributeError

/-- `x[0]` on a parsed JSON value, with Python semantics: first element
of a non-empty list, `IndexError` on an empty list, the one-character
string for a non-empty string, `KeyError` for an object (integer key is
absent from a string-keyed dict) and `TypeError` otherwise. -/
def index0 : Json → Except PyErr Json
  | .arr [] => .error .indexError
  | .arr (x :: _) => .ok x
  | .str s => if s = "" then .error .indexError else .ok (.str (s.take 1))
  | .obj _ => .error .keyError
  | _ => .error .typeError

end Json

/-!
## Streaming response consumer (`commands/chat.py`, `send`, lines 119-147)

The loop body is

    data = json.loads(data_str)
    delta = data.get("choices", [{}])[0].get("delta", {})
    content = delta.get("content", "")
    if content:
        print(content, end="", flush=True)
        full_content += content

`json.loads` is external; the consumer is parameterised by a parse
function `parse : String → Option Json` where `none` models
`json.JSONDecodeError` (the only exception `json.loads` raises here).
-/

/-!
Python string primitives used by the embedded code, defined
structurally over the code-point list of the string (a Python `str` is
a sequence of code points), so that concrete instances evaluate.
-/

/-- Whitespace test used by Python `str.strip`. -/
def pySpace (c : Char) : Bool :=
  c = ' ' || c = '\t' || c = '\r' || c = '\n'

/-- Does the first code-point list start with the second? -/
def beginsAux : List Char → List Char → Bool
  | _, [] => true
  | [], _ :: _ => false
  | c :: cs, p :: ps => c = p && beginsAux cs ps

/-- Python `s.startswith(p)`. -/
def pyBegins (s p : String) : Bool :=
  beginsAux s.data p.data

/-- Does the haystack contain the needle as a contiguous run? -/
def hasAux : List Char → List Char → Bool
  | _, [] => true
  | [], _ :: _ => false
  | c :: cs, n => beginsAux (c :: cs) n || hasAux cs n

/-- Python `needle in hay` on strings. -/
def strHas (hay needle : String) : Bool :=
  hasAux hay.data needle.data

/-- Python `s[n:]`: drop the first `n` code points. -/
def pyDrop (s : String) (n : Nat) : String :=
  ⟨s.data.drop n⟩

/-- Python `s.strip()`: remove leading and trailing whitespace. -/
def pyStrip (s : String) : String :=
  ⟨(((s.data.dropWhile pySpace).reverse.dropWhile pySpace).reverse)⟩

/-- Python `len(s)`: the number of code points. -/
def pyLen (s : String) : Nat :=
  s.data.length

/-- Python `s.lower()` (ASCII range, which covers the embedded
messages). -/
def pyLower (s : String) : String :=
  ⟨s.data.map Char.toLower⟩

/-- Extraction of `choices[0].delta.content` from one parsed chunk,
with Python exception semantics. `ok none` means the chunk contributes
nothing (falsy content); `ok (some s)` means the string `s` is printed
and appended; `error e` means the extraction (or the `+=` on a truthy
non-string content) raises `e`, which is not caught by the
`except json.JSONDecodeError` handler and aborts the stream. -/
def extractContent (data : Json) : Except PyErr (Option String) := do
  let choices ← data.dictGet "choices" (.arr [.obj []])
  let first ← choices.index0
  let delta ← first.dictGet "delta" (.obj [])
  let content ← delta.dictGet "content" (.str "")
  if content.truthy then
    match content with
    | .str s => pure (some s)
    | _ => .error .typeError
  else
    pure none

/-- `line.startswith("data: ")`. -/
def isDataLine (line : String) : Bool :=
  pyBegins line "data: "

/-- A line whose payload (after the `data: ` prefix, stripped) is the
`[DONE]` sentinel. -/
def isSentinelLine (line : String) : Bool :=
  isDataLine line && decide (pyStrip (pyDrop line 6) = "[DONE]")

/-- How the streaming read loop ended. -/
inductive LoopExit where
  | sentinel
  | exhausted
  | raised (e : PyErr)
deriving DecidableEq, Repr

/-- The `for line in response.iter_lines()` loop of `chat send`:
skip lines without the `data: ` prefix, break on the `[DONE]` sentinel,
skip lines whose payload fails to parse as JSON, accumulate truthy
string contents, and abort on any other exception raised by the
extraction. Returns the accumulated content and how the loop ended. -/
def runLoop (parse : String → Option Json) : List String → String → String × LoopExit
  | [], acc => (acc, .exhausted)
  | line :: rest, acc =>
    if isDataLine line then
      if pyStrip (pyDrop line 6) = "[DONE]" then
        (acc, .sentinel)
      else
        match parse (pyDrop line 6) with
        | none => runLoop parse rest acc
        | some data =>
          match extractContent data with
          | .error e => (acc, .raised e)
          | .ok none => runLoop parse rest acc
          | .ok (some s) => runLoop parse rest (acc ++ s)
    else
      runLoop parse rest acc

/-- A streamed response body: the lines the transport yields, and
whether a `KeyboardInterrupt` is delivered when the consumer asks for
the next line after `lines` is exhausted. An interrupt after `k` lines
of a longer stream is the body whose `lines` are those first `k`. -/
structure StreamBody where
  lines : List String
  interrupt : Bool
deriving DecidableEq, Repr

/-- Observable terminal output events of `chat send` after the chunk
prints: the trailing bare newline, a console notice, the final
`{"content": ...}` JSON object, or the interrupt JSON object
`{"content": ..., "interrupted": true}`. -/
inductive OutEvent where
  | newline
  | notice (msg : String)
  | jsonFinal (content : String)
  | jsonInterrupted (content : String)
deriving DecidableEq, Repr

/-- Result of the streaming branch of `chat send`: the accumulated
assistant text, the terminal events after the streamed chunks, and the
process exit code. -/
structure SendResult where
  accumulated : String
  outputs : List OutEvent
  exitCode : Nat
deriving DecidableEq, Repr

/-- The streaming branch of `chat send` (`commands/chat.py` lines
119-147): run the read loop; on normal end (sentinel or closed stream)
print the final newline and, when `--json` was given, the
`{"content": full_content}` object, exiting 0; on `KeyboardInterrupt`
print a newline, the `Stream interrupted by user` notice and — only
when `full_content` is truthy and `--json` was given — the
`{"content": ..., "interrupted": true}` object, then `typer.Exit(0)`;
an uncaught extraction exception propagates and the process exits 1. -/
def sendStream (parse : String → Option Json) (body : StreamBody)
    (jsonOutput : Bool) : SendResult :=
  let r := runLoop parse body.lines ""
  match r.2 with
  | .sentinel =>
    { accumulated := r.1
      outputs := [.newline] ++ (if jsonOutput then [.jsonFinal r.1] else [])
      exitCode := 0 }
  | .exhausted =>
    if body.interrupt then
      { accumulated := r.1
        outputs := [.newline, .notice "Stream interrupted by user"]
          ++ (if r.1 ≠ "" && jsonOutput then [.jsonInterrupted r.1] else [])
        exitCode := 0 }
    else
      { accumulated := r.1
        outputs := [.newline] ++ (if jsonOutput then [.jsonFinal r.1] else [])
        exitCode := 0 }
  | .raised _ =>
    { accumulated := r.1
      outputs := []
      exitCode := 1 }

/-- A non-sentinel line is processed cleanly when it lacks the `data: `
prefix, or its payload fails to parse, or the delta extraction does not
raise. -/
def cleanLine (parse : String → Option Json) (line : String) : Bool :=
  if isDataLine line then
    match parse (pyDrop line 6) with
    | none => true
    | some data =>
      match extractContent data with
      | .error _ => false
      | .ok _ => true
  else
    true

/-- The content a cleanly-processed non-sentinel line contributes to the
accumulator (empty for skipped lines). -/
def contribOf (parse : String → Option Json) (line : String) : String :=
  if isDataLine line then
    match parse (pyDrop line 6) with
    | none => ""
    | some data =>
      match extractContent data with
      | .ok (some s) => s
      | _ => ""
  else
    ""

/-!
## Error taxonomy (`errors.py`)
-/

/-- The `CLIError` hierarchy of `errors.py`, carrying the message. -/
inductive CLIErrorE where
  | usage (msg : String)
  | auth (msg : String)
  | network (msg : String)
  | server (msg : String)
deriving DecidableEq, Repr

/-- The fixed exit code of each `CLIError` subclass (`errors.py`,
`ExitCode`), applied by `cli()` in `main.py`. -/
def exitCodeOf : CLIErrorE → Nat
  | .usage _ => 2
  | .auth _ => 3
  | .network _ => 4
  | .server _ => 5

/-!
## Configuration model (`config.py`)
-/

/-- Hardcoded fallback server URI (`ProfileConfig.uri` default). -/
def defaultUri : String := "http://localhost:8080"

/-- `ProfileConfig` of `config.py`. -/
structure ProfileConfig where
  uri : String := defaultUri
deriving DecidableEq, Repr

/-- `DefaultsConfig` of `config.py`. -/
structure DefaultsConfig where
  model : Option String := none
  format : String := "text"
  stream : Bool := true
  timeout : Int := 30
deriving DecidableEq, Repr

/-- `OutputConfig` of `config.py`. -/
structure OutputConfig where
  colors : Bool := true
  progress_bars : Bool := true
  timestamps : Bool := false
deriving DecidableEq, Repr

/-- `Config` of `config.py`. The `profiles` dict is modelled as an
association list (Python dicts preserve insertion order and have unique
keys). -/
structure Config where
  version : Int := 1
  default_profile : String := "default"
  profiles : List (String × ProfileConfig) := [("default", {})]
  defaults : DefaultsConfig := {}
  output : OutputConfig := {}
deriving DecidableEq, Repr

/-- Python `a or b` for an optional first operand: `None` and the empty
string are falsy and fall through to `b`. -/
def pyOr (a : Option String) (b : String) : String :=
  match a with
  | some s => if s = "" then b else s
  | none => b

/-- `get_effective_config` (`config.py` lines 91-111): the environment
`Settings` values are passed in explicitly. Returns
`(effective_uri, effective_profile)`. -/
def get_effective_config (profileArg uriArg envProfile envUri : Option String)
    (cfg : Config) : String × String :=
  let effectiveProfile := pyOr profileArg (pyOr envProfile cfg.default_profile)
  let profileConfig := (cfg.profiles.lookup effectiveProfile).getD {}
  let effectiveUri := pyOr uriArg (pyOr envUri profileConfig.uri)
  (effectiveUri, effectiveProfile)

/-- The resolution chain exactly as claim C6 and §4.1/§3 of the spec
word it: effective profile is the explicit argument if given, else the
environment profile, else the config default profile; effective URI is
the explicit argument if given, else the environment URI, else the
resolved profile entry's URI, else the hardcoded fallback. -/
def specEffectiveConfig (profileArg uriArg envProfile envUri : Option String)
    (cfg : Config) : String × String :=
  let prof :=
    match profileArg with
    | some p => p
    | none =>
      match envProfile with
      | some p => p
      | none => cfg.default_profile
  let uri :=
    match uriArg with
    | some u => u
    | none =>
      match envUri with
      | some u => u
      | none =>
        match cfg.profiles.lookup prof with
        | some pc => pc.uri
        | none => defaultUri
  (uri, prof)

/-!
## Keyring and client creation (`http.py`)
-/

/-- Result of one `keyring.get_password` call: a value (possibly
absent), or a raised `keyring.errors.KeyringError` (no backend). -/
inductive KeyOutcome where
  | ok (v : Option String)
  | err
deriving DecidableEq, Repr

/-- The system keyring viewed through `get_password`, keyed by the
lookup key under the fixed `openwebui-cli` service namespace. -/
def KeyStore := String → KeyOutcome

/-- `get_token` (`http.py` lines 15-22): look up `"{profile}:{uri}"`;
a `KeyringError` is caught and converted to `None` (the source comment:
allow caller to fall back to env/CLI token). -/
def get_token (store : KeyStore) (profile uri : String) : Option String :=
  match store (profile ++ ":" ++ uri) with
  | .ok v => v
  | .err => none

/-- Message of the `AuthError` raised by `create_client` when no token
is available from any source (`http.py` lines 82-88). -/
def noTokenMsg : String :=
  "No authentication token available.\nLog in with \x27openwebui auth login\x27 or provide a token via:\n  - env: OPENWEBUI_TOKEN\n  - CLI: --token <TOKEN>\nIf using keyring, install a backend (e.g., keyrings.alt)."

/-- Message of the `AuthError` in `create_client`'s
`except keyring.errors.KeyringError` branch (`http.py` lines 72-76).
That branch is unreachable: `get_token` already catches `KeyringError`
and returns `None`, so no `KeyringError` ever escapes into it. -/
def keyringUnavailableMsg : String :=
  "No keyring backend available.\nSet OPENWEBUI_TOKEN or pass --token to use the CLI without keyring, or install a keyring backend (e.g., pip install keyrings.alt)."

/-- The HTTP client `create_client` builds: base URL, the
`Authorization` header when present, the timeout, and (model
bookkeeping) the token the resolution chain produced. The constant
`Content-Type: application/json` and `Accept: application/json`
headers are always set and are not repeated here. -/
structure ClientModel where
  baseUrl : String
  authHeader : Option String
  timeout : Int
  tokenUsed : Option String
deriving DecidableEq, Repr

/-- `create_client` (`http.py` lines 40-106). Token precedence is the
source's nested `if token is None` chain: CLI param, then the
`OPENWEBUI_TOKEN` environment setting, then the keyring via
`get_token`. Since `get_token` returns `None` instead of raising when
the backend is unavailable, the source's `except KeyringError` branch
(which would raise `keyringUnavailableMsg`) never fires and is absent
here. A missing token raises `AuthError(noTokenMsg)` unless
`allow_unauthenticated`; a present but empty token yields no
`Authorization` header (`if token:`). -/
def create_client (profileArg uriArg tokenArg envProfile envUri envToken : Option String)
    (timeoutArg : Option Int) (allowUnauthenticated : Bool)
    (cfg : Config) (store : KeyStore) : Except CLIErrorE ClientModel :=
  let ec := get_effective_config profileArg uriArg envProfile envUri cfg
  let token : Option String :=
    match tokenArg with
    | some t => some t
    | none =>
      match envToken with
      | some t => some t
      | none => get_token store ec.2 ec.1
  match token with
  | none =>
    if allowUnauthenticated then
      .ok { baseUrl := ec.1, authHeader := none,
            timeout := timeoutArg.getD cfg.defaults.timeout, tokenUsed := none }
    else
      .error (.auth noTokenMsg)
  | some t =>
    .ok { baseUrl := ec.1,
          authHeader := if t = "" then none else some ("Bearer " ++ t),
          timeout := timeoutArg.getD cfg.defaults.timeout, tokenUsed := some t }

/-- The resolved token of a `create_client` result: `none` when
creation failed or no token was found. -/
def clientTokenOf : Except CLIErrorE ClientModel → Option String
  | .ok c => c.tokenUsed
  | .error _ => none

/-!
## Response classification (`http.py`, `handle_response`)
-/

/-- Python `repr` of a parsed JSON value (used inside f-strings for
non-string `detail` values). -/
def pyRepr : Json → String
  | .null => "None"
  | .bool b => if b then "True" else "False"
  | .num n => toString n
  | .str s => "\x27" ++ s ++ "\x27"
  | .arr xs => "[" ++ String.intercalate ", " (xs.attach.map fun x => pyRepr x.1) ++ "]"
  | .obj fs =>
    "\x7b" ++
      String.intercalate ", "
        (fs.attach.map fun f => "\x27" ++ f.1.1 ++ "\x27: " ++ pyRepr f.1.2) ++
    "\x7d"
termination_by j => sizeOf j
decreasing_by
  all_goals simp_wf
  · have h := List.sizeOf_lt_of_mem x.2
    omega
  · rcases f with ⟨⟨a, b⟩, hf⟩
    have h := List.sizeOf_lt_of_mem hf
    rw [Prod.mk.sizeOf_spec] at h
    simp only []
    omega

/-- Python `str` of a parsed JSON value as interpolated by an f-string. -/
def pyStr : Json → String
  | .str s => s
  | j => pyRepr j

/-- `error_data.get("detail", error_data.get("message", fallback))`
with the surrounding `except Exception` that maps a non-JSON body or a
non-dict body to the fallback. `body = none` models `response.json()`
raising. -/
def detailOf (body : Option Json) (fallback : String) : String :=
  match body with
  | some (.obj fields) =>
    match fields.lookup "detail" with
    | some v => pyStr v
    | none =>
      match fields.lookup "message" with
      | some v => pyStr v
      | none => fallback
  | _ => fallback

/-- Message of the `AuthError` raised for a 401 response. -/
def msg401 : String :=
  "Authentication required. Please run \x27openwebui auth login\x27 first.\nIf you recently logged in, your token may have expired."

/-- Message of the `AuthError` raised for a 403 response
(`http.py` lines 180-187). -/
def msg403 : String :=
  "Permission denied. This operation requires higher privileges.\nPossible causes:\n  - Your user role lacks required permissions\n  - The API key doesn\x27t have sufficient access\n  - Try logging in again: openwebui auth login"

/-- `handle_response` (`http.py` lines 163-218): classify the response
by status code. `body` is the parsed JSON body (`none` when
`response.json()` raises) and `text` is `response.text`. -/
def handle_response (status : Nat) (body : Option Json) (text : String) :
    Except CLIErrorE Json :=
  if status = 401 then
    .error (.auth msg401)
  else if status = 403 then
    .error (.auth msg403)
  else if status = 404 then
    .error (.server ("Not found: " ++ detailOf body "Resource not found" ++
      "\nCheck that the resource ID, model name, or endpoint is correct."))
  else if status ≥ 500 then
    .error (.server ("Server error (" ++ toString status ++ "): " ++ text ++
      "\nThe OpenWebUI server encountered an error.\nTry again in a moment, or check server logs if you\x27re the administrator."))
  else if status ≥ 400 then
    .error (.server ("API error (" ++ toString status ++ "): " ++ detailOf body text ++
      "\nCheck your request parameters and try again."))
  else
    match body with
    | some j => .ok j
    | none => .ok (.obj [("text", .str text)])

/-!
## RAG search validation (`commands/rag.py`, `search`, lines 317-355)
-/

/-- `MIN_SEARCH_QUERY_LENGTH` (`rag.py` line 25). -/
def MIN_SEARCH_QUERY_LENGTH : Nat := 3

/-- How far `rag search` gets before touching the network: either a
`UsageError` raised by the validation block (before `create_client` is
called and before any request), or the POST request it would issue. -/
inductive RagSearchOutcome where
  | usageErr (msg : String)
  | request (path : String) (query : String) (k : Int)
deriving DecidableEq, Repr

/-- The validation prefix and request construction of `rag search`
(`rag.py` lines 317-354), in source order: empty query, short query,
empty collection, non-positive `top_k`, then the POST to
`/api/v1/knowledge/{collection}/query`. -/
def ragSearch (query collection : String) (topK : Int) : RagSearchOutcome :=
  if query = "" ∨ pyStrip query = "" then
    .usageErr "Search query cannot be empty."
  else if pyLen (pyStrip query) < MIN_SEARCH_QUERY_LENGTH then
    .usageErr ("Search query must be at least " ++ toString MIN_SEARCH_QUERY_LENGTH ++ " characters.")
  else if collection = "" ∨ pyStrip collection = "" then
    .usageErr "Collection ID is required (use --collection or -c option)."
  else if topK < 1 then
    .usageErr "Number of results (--top-k) must be at least 1."
  else
    .request ("/api/v1/knowledge/" ++ pyStrip collection ++ "/query") (pyStrip query) topK

/-- The HTTP requests a `rag search` outcome issues: none when
validation failed. -/
def requestsOf : RagSearchOutcome → List String
  | .usageErr _ => []
  | .request p _ _ => [p]

/-- The exit code the CLI entry point (`main.py`, `cli`) produces for a
`rag search` outcome, when it is already determined by validation. -/
def ragSearchExit : RagSearchOutcome → Option Nat
  | .usageErr m => some (exitCodeOf (.usage m))
  | .request _ _ _ => none

/-!
## Token deletion (`http.py`, `delete_token`; `commands/auth.py`, `logout`)

The keyring store contents are modelled as an association list from
lookup key to stored token, under the fixed `openwebui-cli` service
namespace, with a functioning backend (backend unavailability is a
different failure surface, modelled by `KeyOutcome.err` for reads).
-/

/-- Store contents under the `openwebui-cli` service. -/
def KeyringState := List (String × String)

/-- `keyring.delete_password`: removes the entry, raising
`PasswordDeleteError` when no entry exists for the key. -/
def delete_password (st : KeyringState) (key : String) :
    Except PyErr KeyringState :=
  match List.lookup key st with
  | some _ => .ok (st.filter (fun kv => !(kv.1 == key)))
  | none => .error .passwordDeleteError

/-- `delete_token` (`http.py` lines 31-37): delete the
`"{profile}:{uri}"` entry, catching `PasswordDeleteError` (a missing
token is fine) and leaving the store unchanged in that case. -/
def delete_token (st : KeyringState) (profile uri : String) :
    Except PyErr KeyringState :=
  match delete_password st (profile ++ ":" ++ uri) with
  | .ok st2 => .ok st2
  | .error .passwordDeleteError => .ok st
  | .error e => .error e

/-- The store state after `delete_token` (total by construction of the
error handling). -/
def deleteTokenState (st : KeyringState) (profile uri : String) : KeyringState :=
  match delete_token st profile uri with
  | .ok st2 => st2
  | .error _ => st

/-- `auth logout` (`auth.py` lines 63-70): delete the token and print a
confirmation; returns the new store state, the message, and the exit
code (an escaping exception would exit 1). -/
def logout (st : KeyringState) (profile uri : String) :
    KeyringState × String × Nat :=
  match delete_token st profile uri with
  | .ok st2 => (st2, "Logged out from profile: " ++ profile, 0)
  | .error _ => (st, "", 1)

/-!
## Configuration persistence (`config.py`, `save_config` / `load_config`)

`save_config` writes `yaml.dump(config.model_dump())` and `load_config`
reads `yaml.safe_load` and validates with `Config(**data)`. YAML
serialisation of the dumped tree is an external collaborator and is
faithful for the scalar/mapping shapes produced here, so the persisted
document is modelled as the dumped tree itself; `model_dump` and
pydantic validation are modelled below.
-/

/-- `model_dump` of `ProfileConfig`. -/
def ProfileConfig.dump (p : ProfileConfig) : Json :=
  .obj [("uri", .str p.uri)]

/-- `model_dump` of `DefaultsConfig`. -/
def DefaultsConfig.dump (d : DefaultsConfig) : Json :=
  .obj [("model", match d.model with | none => .null | some s => .str s),
        ("format", .str d.format),
        ("stream", .bool d.stream),
        ("timeout", .num d.timeout)]

/-- `model_dump` of `OutputConfig`. -/
def OutputConfig.dump (o : OutputConfig) : Json :=
  .obj [("colors", .bool o.colors),
        ("progress_bars", .bool o.progress_bars),
        ("timestamps", .bool o.timestamps)]

/-- `model_dump` of `Config`. -/
def Config.dump (c : Config) : Json :=
  .obj [("version", .num c.version),
        ("default_profile", .str c.default_profile),
        ("profiles", .obj (c.profiles.map fun kv => (kv.1, kv.2.dump))),
        ("defaults", c.defaults.dump),
        ("output", c.output.dump)]

/-- Pydantic validation of `ProfileConfig` from a parsed document:
missing fields get their defaults, ill-typed fields fail validation. -/
def ProfileConfig.validate (j : Json) : Option ProfileConfig :=
  match j with
  | .obj fs =>
    match fs.lookup "uri" with
    | none => some {}
    | some (.str s) => some { uri := s }
    | some _ => none
  | _ => none

/-- Pydantic validation of `DefaultsConfig`. -/
def DefaultsConfig.validate (j : Json) : Option DefaultsConfig :=
  match j with
  | .obj fs => do
    let model ←
      match fs.lookup "model" with
      | none => some none
      | some .null => some none
      | some (.str s) => some (some s)
      | some _ => none
    let fmt ←
      match fs.lookup "format" with
      | none => some "text"
      | some (.str s) => some s
      | some _ => none
    let stream ←
      match fs.lookup "stream" with
      | none => some true
      | some (.bool b) => some b
      | some _ => none
    let timeout ←
      match fs.lookup "timeout" with
      | none => some (30 : Int)
      | some (.num n) => some n
      | some _ => none
    pure { model := model, format := fmt, stream := stream, timeout := timeout }
  | _ => none

/-- Pydantic validation of `OutputConfig`. -/
def OutputConfig.validate (j : Json) : Option OutputConfig :=
  match j with
  | .obj fs => do
    let colors ←
      match fs.lookup "colors" with
      | none => some true
      | some (.bool b) => some b
      | some _ => none
    let bars ←
      match fs.lookup "progress_bars" with
      | none => some true
      | some (.bool b) => some b
      | some _ => none
    let timestamps ←
      match fs.lookup "timestamps" with
      | none => some false
      | some (.bool b) => some b
      | some _ => none
    pure { colors := colors, progress_bars := bars, timestamps := timestamps }
  | _ => none

/-- Pydantic validation of each entry of the `profiles` mapping, in
order; any invalid entry fails the whole validation. -/
def validateProfiles : List (String × Json) → Option (List (String × ProfileConfig))
  | [] => some []
  | kv :: rest => do
    let pc ← ProfileConfig.validate kv.2
    let tail ← validateProfiles rest
    pure ((kv.1, pc) :: tail)

/-- Pydantic validation of `Config` (`Config(**data)` in
`load_config`): `none` models a raised `ValidationError`. -/
def Config.validate (j : Json) : Option Config :=
  match j with
  | .obj fs => do
    let version ←
      match fs.lookup "version" with
      | none => some (1 : Int)
      | some (.num n) => some n
      | some _ => none
    let defaultProfile ←
      match fs.lookup "default_profile" with
      | none => some "default"
      | some (.str s) => some s
      | some _ => none
    let profiles ←
      match fs.lookup "profiles" with
      | none => some [("default", ({} : ProfileConfig))]
      | some (.obj entries) => validateProfiles entries
      | some _ => none
    let defaults ←
      match fs.lookup "defaults" with
      | none => some ({} : DefaultsConfig)
      | some d => DefaultsConfig.validate d
    let output ←
      match fs.lookup "output" with
      | none => some ({} : OutputConfig)
      | some o => OutputConfig.validate o
    pure { version := version, default_profile := defaultProfile,
           profiles := profiles, defaults := defaults, output := output }
  | _ => none

/-- `save_config` (`config.py` lines 82-88): the persisted document is
the dumped configuration tree. -/
def save_config (c : Config) : Json :=
  c.dump

/-- `load_config` (`config.py` lines 70-79): a missing config file
yields the default `Config()`; otherwise the document is validated.
`none` input models the missing file. -/
def load_config (doc : Option Json) : Option Config :=
  match doc with
  | none => some {}
  | some d => Config.validate d

/-!
## Shared lemmas about the streaming loop
-/

/-- Concatenation of a list of strings in order. -/
def concatAll : List String → String
  | [] => ""
  | s :: rest => s ++ concatAll rest

/-- Processing a block of cleanly-handled, non-sentinel lines advances
the accumulator by exactly the concatenation of their contributions. -/
theorem runLoop_clean_append (parse : String → Option Json) (rest : List String) :
    ∀ (pre : List String) (acc : String),
      (∀ l ∈ pre, isSentinelLine l = false) →
      (∀ l ∈ pre, cleanLine parse l = true) →
      runLoop parse (pre ++ rest) acc =
        runLoop parse rest (acc ++ concatAll (pre.map (contribOf parse))) := by
  intro pre
  induction pre with
  | nil => intro acc _ _; simp [concatAll]
  | cons l pre ih =>
    intro acc hs hc
    have hsl : isSentinelLine l = false := hs l (by simp)
    have hcl : cleanLine parse l = true := hc l (by simp)
    have hs2 : ∀ x ∈ pre, isSentinelLine x = false := fun x hx => hs x (by simp [hx])
    have hc2 : ∀ x ∈ pre, cleanLine parse x = true := fun x hx => hc x (by simp [hx])
    rw [List.cons_append]
    by_cases hd : isDataLine l = true
    · have hne : pyStrip (pyDrop l 6) ≠ "[DONE]" := by
        intro hEq
        rw [isSentinelLine] at hsl
        simp [hd, hEq] at hsl
      cases hp : parse (pyDrop l 6) with
      | none =>
        have h1 : runLoop parse (l :: (pre ++ rest)) acc = runLoop parse (pre ++ rest) acc := by
          simp [runLoop, hd, hne, hp]
        have h2 : contribOf parse l = "" := by simp [contribOf, hd, hp]
        rw [h1, ih acc hs2 hc2]
        simp [concatAll, h2]
      | some data =>
        cases he : extractContent data with
        | error e =>
          rw [cleanLine] at hcl
          simp [hd, hp, he] at hcl
        | ok oc =>
          cases oc with
          | none =>
            have h1 : runLoop parse (l :: (pre ++ rest)) acc =
                runLoop parse (pre ++ rest) acc := by
              simp [runLoop, hd, hne, hp, he]
            have h2 : contribOf parse l = "" := by simp [contribOf, hd, hp, he]
            rw [h1, ih acc hs2 hc2]
            simp [concatAll, h2]
          | some s =>
            have h1 : runLoop parse (l :: (pre ++ rest)) acc =
                runLoop parse (pre ++ rest) (acc ++ s) := by
              simp [runLoop, hd, hne, hp, he]
            have h2 : contribOf parse l = s := by simp [contribOf, hd, hp, he]
            rw [h1, ih (acc ++ s) hs2 hc2]
            simp [concatAll, h2, String.append_assoc]
    · have h1 : runLoop parse (l :: (pre ++ rest)) acc = runLoop parse (pre ++ rest) acc := by
        simp [runLoop, hd]
      have h2 : contribOf parse l = "" := by simp [contribOf, hd]
      rw [h1, ih acc hs2 hc2]
      simp [concatAll, h2]

/-- When a sentinel line follows a block of cleanly-handled lines, the
stream completes normally with exit code 0 and the accumulated
concatenation, regardless of what follows the sentinel. -/
theorem sendStream_sentinel (parse : String → Option Json)
    (pre post : List String) (s : String) (interrupt jsonOutput : Bool)
    (hsent : isSentinelLine s = true)
    (hpre : ∀ l ∈ pre, isSentinelLine l = false)
    (hclean : ∀ l ∈ pre, cleanLine parse l = true) :
    sendStream parse ⟨pre ++ s :: post, interrupt⟩ jsonOutput =
      { accumulated := concatAll (pre.map (contribOf parse))
        outputs := [OutEvent.newline] ++
          (if jsonOutput then
            [OutEvent.jsonFinal (concatAll (pre.map (contribOf parse)))] else [])
        exitCode := 0 } := by
  obtain ⟨hd, hdone⟩ : isDataLine s = true ∧ pyStrip (pyDrop s 6) = "[DONE]" := by
    rw [isSentinelLine] at hsent
    simpa using hsent
  have hrun : runLoop parse (pre ++ s :: post) "" =
      (concatAll (pre.map (contribOf parse)), LoopExit.sentinel) := by
    rw [runLoop_clean_append parse (s :: post) pre "" hpre hclean]
    simp [runLoop, hd, hdone]
  simp [sendStream, hrun]

/-- When the stream is exhausted after cleanly-handled, non-sentinel
lines and a `KeyboardInterrupt` is delivered, the handler runs with the
accumulated concatenation. -/
theorem sendStream_interrupt (parse : String → Option Json)
    (lines : List String) (jsonOutput : Bool)
    (hns : ∀ l ∈ lines, isSentinelLine l = false)
    (hclean : ∀ l ∈ lines, cleanLine parse l = true) :
    sendStream parse ⟨lines, true⟩ jsonOutput =
      { accumulated := concatAll (lines.map (contribOf parse))
        outputs := [OutEvent.newline, OutEvent.notice "Stream interrupted by user"] ++
          (if concatAll (lines.map (contribOf parse)) ≠ "" && jsonOutput then
            [OutEvent.jsonInterrupted (concatAll (lines.map (contribOf parse)))] else [])
        exitCode := 0 } := by
  have hrun : runLoop parse lines "" =
      (concatAll (lines.map (contribOf parse)), LoopExit.exhausted) := by
    have h := runLoop_clean_append parse [] lines "" hns hclean
    rw [List.append_nil] at h
    rw [h]
    simp [runLoop]
  simp [sendStream, hrun]

/-!
## Concrete parse oracles for witnesses and counterexamples

These mirror `json.loads` on the finitely many payloads the concrete
streams below use; every other payload fails to parse (models
`json.JSONDecodeError`).
-/

/-- `json.loads` on the two well-formed example chunks carrying deltas
`"A"` and `"B"`; everything else (e.g. `\x7bbad\x7d`) raises. -/
def demoParse : String → Option Json := fun s =>
  if s = "\x7b\"choices\": [\x7b\"delta\": \x7b\"content\": \"A\"\x7d\x7d]\x7d" then
    some (.obj [("choices", .arr [.obj [("delta", .obj [("content", .str "A")])]])])
  else if s = "\x7b\"choices\": [\x7b\"delta\": \x7b\"content\": \"B\"\x7d\x7d]\x7d" then
    some (.obj [("choices", .arr [.obj [("delta", .obj [("content", .str "B")])]])])
  else none

/-- `json.loads` on the valid payload `\x7b"choices": []\x7d` (an object whose
`choices` is the empty array); everything else raises. -/
def emptyChoicesParse : String → Option Json := fun s =>
  if s = "\x7b\"choices\": []\x7d" then some (.obj [("choices", .arr [])]) else none

/-- Stream line carrying delta content `"A"`. -/
def lineA : String := "data: \x7b\"choices\": [\x7b\"delta\": \x7b\"content\": \"A\"\x7d\x7d]\x7d"

/-- Stream line carrying delta content `"B"`. -/
def lineB : String := "data: \x7b\"choices\": [\x7b\"delta\": \x7b\"content\": \"B\"\x7d\x7d]\x7d"

/-- Stream line whose payload is malformed JSON. -/
def lineBad : String := "data: \x7bbad\x7d"

/-!
## Claims C1, C2, C5: the streaming consumer
-/

/-- C1 (amended): for every streamed body containing the `[DONE]`
sentinel, provided every `data: `-prefixed line before the sentinel
whose payload parses as JSON also extracts `choices[0].delta.content`
without raising, the accumulated assistant text equals the
concatenation, in arrival order, of the lines' delta contributions
(non-`data: ` lines and unparsable payloads contribute nothing), the
command completes with exit code 0, and lines after the sentinel are
never processed (the result does not depend on `post`). -/
theorem sentinel_accumulation (parse : String → Option Json)
    (pre post : List String) (s : String) (interrupt jsonOutput : Bool)
    (hsent : isSentinelLine s = true)
    (hpre : ∀ l ∈ pre, isSentinelLine l = false)
    (hclean : ∀ l ∈ pre, cleanLine parse l = true) :
    sendStream parse ⟨pre ++ s :: post, interrupt⟩ jsonOutput =
      { accumulated := concatAll (pre.map (contribOf parse))
        outputs := [OutEvent.newline] ++
          (if jsonOutput then
            [OutEvent.jsonFinal (concatAll (pre.map (contribOf parse)))] else [])
        exitCode := 0 } :=
  sendStream_sentinel parse pre post s interrupt jsonOutput hsent hpre hclean

/-- Witness for C1: deltas `"A"`, a non-`data: ` line and a malformed
payload before the sentinel, a `"B"` delta after it: the accumulated
text is exactly `"A"`. -/
theorem sentinel_accumulation_witness :
    sendStream demoParse ⟨[lineA, "ignore me", lineBad] ++ "data: [DONE]" :: [lineB], false⟩
        true =
      ⟨"A", [OutEvent.newline, OutEvent.jsonFinal "A"], 0⟩ :=
  (sentinel_accumulation demoParse [lineA, "ignore me", lineBad] [lineB] "data: [DONE]"
    false true (by decide) (by decide) (by decide)).trans (by decide)

/-- Counterexample for C1 as stated: the body whose only pre-sentinel
line is `data: \x7b"choices": []\x7d` — a `data: ` line that parses as JSON
and carries no `choices[0].delta.content` value, so the claim says it
contributes nothing and the accumulated text is `""` with normal
completion. Instead `data.get("choices", [\x7b\x7d])[0]` raises `IndexError`,
which the `except json.JSONDecodeError` handler does not catch: the
stream aborts with no trailing newline and a nonzero exit. -/
theorem sentinel_accumulation_cex :
    sendStream emptyChoicesParse
        ⟨["data: \x7b\"choices\": []\x7d", "data: [DONE]"], false⟩ false =
      ⟨"", [], 1⟩ ∧
    sendStream emptyChoicesParse
        ⟨["data: \x7b\"choices\": []\x7d", "data: [DONE]"], false⟩ false ≠
      ⟨"", [OutEvent.newline], 0⟩ := by
  decide

/-- C5 (confirmed): with malformed-JSON payload lines interspersed
among valid delta-carrying lines, every malformed line contributes
nothing (it is skipped) and the stream still completes normally with
the concatenation of the valid lines' non-empty delta contents. -/
theorem malformed_skipped (parse : String → Option Json)
    (lines : List String) (interrupt jsonOutput : Bool)
    (hdata : ∀ l ∈ lines, isDataLine l = true)
    (hns : ∀ l ∈ lines, isSentinelLine l = false)
    (hok : ∀ l ∈ lines, cleanLine parse l = true) :
    (∀ l ∈ lines, parse (pyDrop l 6) = none → contribOf parse l = "") ∧
    sendStream parse ⟨lines ++ "data: [DONE]" :: [], interrupt⟩ jsonOutput =
      { accumulated := concatAll (lines.map (contribOf parse))
        outputs := [OutEvent.newline] ++
          (if jsonOutput then
            [OutEvent.jsonFinal (concatAll (lines.map (contribOf parse)))] else [])
        exitCode := 0 } := by
  constructor
  · intro l hl hp
    by_cases hd : isDataLine l = true
    · simp [contribOf, hd, hp]
    · simp [contribOf, hd]
  · exact sendStream_sentinel parse lines [] "data: [DONE]" interrupt jsonOutput
      (by decide) hns hok

/-- Witness for C5: deltas `"A"`, a malformed line, `"B"` accumulate to
`"AB"`. -/
theorem malformed_skipped_witness :
    sendStream demoParse ⟨[lineA, lineBad, lineB] ++ "data: [DONE]" :: [], false⟩ false =
      ⟨"AB", [OutEvent.newline], 0⟩ :=
  ((malformed_skipped demoParse [lineA, lineBad, lineB] false false
    (by decide) (by decide) (by decide)).2).trans (by decide)

/-- C2 (amended): an interrupt delivered mid-stream, after any cleanly
processed lines, stops the read loop, prints a newline and the
`Stream interrupted by user` notice, and exits with success code 0;
the `\x7b"content": ..., "interrupted": true\x7d` object is emitted when JSON
output was requested AND the accumulated content is non-empty (the
source guards it with `if full_content and json_output`). -/
theorem interrupt_exit_clean (parse : String → Option Json)
    (lines : List String) (jsonOutput : Bool)
    (hns : ∀ l ∈ lines, isSentinelLine l = false)
    (hclean : ∀ l ∈ lines, cleanLine parse l = true) :
    sendStream parse ⟨lines, true⟩ jsonOutput =
      { accumulated := concatAll (lines.map (contribOf parse))
        outputs := [OutEvent.newline, OutEvent.notice "Stream interrupted by user"] ++
          (if concatAll (lines.map (contribOf parse)) ≠ "" && jsonOutput then
            [OutEvent.jsonInterrupted (concatAll (lines.map (contribOf parse)))] else [])
        exitCode := 0 } :=
  sendStream_interrupt parse lines jsonOutput hns hclean

/-- Witness for C2: interrupt after delta `"A"` with JSON output
requested yields exit 0, the notice, and the interrupted JSON object
with the partial content. -/
theorem interrupt_exit_clean_witness :
    sendStream demoParse ⟨[lineA], true⟩ true =
      ⟨"A", [OutEvent.newline, OutEvent.notice "Stream interrupted by user",
             OutEvent.jsonInterrupted "A"], 0⟩ :=
  (interrupt_exit_clean demoParse [lineA] true (by decide) (by decide)).trans (by decide)

/-- Counterexample for C2 as stated: an interrupt before any content
arrives, with JSON output requested. The claim (covering a "possibly
empty" accumulation) requires `\x7b"content": "", "interrupted": true\x7d` to
be emitted; the code's `if full_content and json_output` guard skips it
because `full_content` is falsy, so only the newline and the notice are
printed (the exit code is still 0). -/
theorem interrupt_exit_cex :
    sendStream demoParse ⟨[], true⟩ true =
      ⟨"", [OutEvent.newline, OutEvent.notice "Stream interrupted by user"], 0⟩ ∧
    OutEvent.jsonInterrupted "" ∉ (sendStream demoParse ⟨[], true⟩ true).outputs := by
  decide

/-!
## Claims C3, C4: token resolution in `create_client`
-/

/-- C3 (confirmed): the bearer token used when building a client
follows strict precedence — an explicit CLI/param token always wins,
else the environment token wins, else the token is whatever the secret
store yields for key `"{profile}:{uri}"` via `get_token`, for every
combination of present and absent sources. -/
theorem token_precedence (profileArg uriArg envProfile envUri envToken : Option String)
    (tmo : Option Int) (allow : Bool) (cfg : Config) (store : KeyStore) (t : String) :
    clientTokenOf (create_client profileArg uriArg (some t) envProfile envUri envToken
        tmo allow cfg store) = some t ∧
    clientTokenOf (create_client profileArg uriArg none envProfile envUri (some t)
        tmo allow cfg store) = some t ∧
    clientTokenOf (create_client profileArg uriArg none envProfile envUri none
        tmo allow cfg store) =
      get_token store (get_effective_config profileArg uriArg envProfile envUri cfg).2
        (get_effective_config profileArg uriArg envProfile envUri cfg).1 := by
  refine ⟨rfl, rfl, ?_⟩
  simp only [create_client]
  cases hst : get_token store (get_effective_config profileArg uriArg envProfile envUri cfg).2
      (get_effective_config profileArg uriArg envProfile envUri cfg).1 with
  | none => cases allow <;> simp [clientTokenOf, hst]
  | some v => simp [clientTokenOf, hst]

/-- A keyring with no backend installed: every `get_password` call
raises `KeyringError`. -/
def unavailableStore : KeyStore := fun _ => .err

/-- A functioning keyring with no stored tokens. -/
def emptyStore : KeyStore := fun _ => .ok none

/-- C4 (amended): when the secret store is unavailable and neither an
explicit nor an environment token is supplied, client creation fails
with the same `No authentication token available` Auth error that is
raised when no token is found anywhere — `get_token` converts the
backend failure into an absent token, so no distinct error is raised —
and that shared message does carry guidance to install a backend or use
`OPENWEBUI_TOKEN` / `--token`; unless the caller allows
unauthenticated operation, in which case the client is built with no
`Authorization` header. -/
theorem keyring_unavailable_error (profileArg uriArg envProfile envUri : Option String)
    (tmo : Option Int) (cfg : Config) (store : KeyStore)
    (hstore : ∀ k, store k = .err) :
    create_client profileArg uriArg none envProfile envUri none tmo false cfg store =
      .error (.auth noTokenMsg) ∧
    (create_client profileArg uriArg none envProfile envUri none tmo true cfg store =
      .ok { baseUrl := (get_effective_config profileArg uriArg envProfile envUri cfg).1,
            authHeader := none, timeout := tmo.getD cfg.defaults.timeout,
            tokenUsed := none }) ∧
    strHas noTokenMsg "install a backend" = true ∧
    strHas noTokenMsg "OPENWEBUI_TOKEN" = true ∧
    strHas noTokenMsg "--token" = true := by
  refine ⟨?_, ?_, by decide, by decide, by decide⟩
  · simp [create_client, get_token, hstore]
  · simp [create_client, get_token, hstore]

/-- Witness for C4 at a concrete unavailable store and the default
configuration. -/
theorem keyring_unavailable_error_witness :
    create_client none none none none none none none false {} unavailableStore =
      .error (.auth noTokenMsg) ∧
    create_client none none none none none none none true {} unavailableStore =
      .ok { baseUrl := defaultUri, authHeader := none, timeout := 30, tokenUsed := none } :=
  ⟨(keyring_unavailable_error none none none none none {} unavailableStore
      (fun _ => rfl)).1,
   ((keyring_unavailable_error none none none none none {} unavailableStore
      (fun _ => rfl)).2.1).trans (by rfl)⟩

/-- Counterexample for C4's "distinct Auth error" as stated: with no
explicit or environment token, an unavailable store and an
available-but-empty store produce the very same `AuthError` — the
generic no-token error, not a distinct keyring-unavailable error (the
source's dedicated `except KeyringError` branch in `create_client` is
unreachable because `get_token` already swallows the exception). -/
theorem keyring_unavailable_cex :
    create_client none none none none none none none false {} unavailableStore =
      .error (.auth noTokenMsg) ∧
    create_client none none none none none none none false {} emptyStore =
      .error (.auth noTokenMsg) := by
  exact ⟨rfl, rfl⟩

/-!
## Claim C6: effective URI and profile resolution
-/

/-- `dict.get(profile, ProfileConfig())` followed by `.uri` equals the
explicit lookup with the hardcoded fallback URI. -/
theorem profile_uri_default (o : Option ProfileConfig) :
    (o.getD {}).uri =
      (match o with
       | some pc => pc.uri
       | none => defaultUri) := by
  cases o <;> rfl

/-- C6 (confirmed): for every invocation whose provided overrides are
non-empty strings, `get_effective_config` resolves exactly the chain
the claim states — profile: explicit, else environment, else config
default; URI: explicit, else environment, else the resolved profile
entry's URI, else the hardcoded `http://localhost:8080` fallback when
the effective profile has no entry. -/
theorem effective_config_precedence (profileArg uriArg envProfile envUri : Option String)
    (cfg : Config)
    (hp : profileArg ≠ some "") (hep : envProfile ≠ some "")
    (hu : uriArg ≠ some "") (heu : envUri ≠ some "") :
    get_effective_config profileArg uriArg envProfile envUri cfg =
      specEffectiveConfig profileArg uriArg envProfile envUri cfg := by
  rcases profileArg with _ | p <;> rcases envProfile with _ | ep <;>
    rcases uriArg with _ | u <;> rcases envUri with _ | eu <;>
    simp_all [get_effective_config, specEffectiveConfig, pyOr, profile_uri_default]

/-- A configuration with a custom default profile and two entries, for
the C6 witness. -/
def cfgDemo : Config :=
  { default_profile := "work"
    profiles := [("work", { uri := "http://work.example:3000" }), ("default", {})] }

/-- Witness for C6: an environment profile overriding the config
default, with no entry for it in the profile map, falls back to the
hardcoded URI. -/
theorem effective_config_precedence_witness :
    get_effective_config none none (some "stage") none cfgDemo =
      ("http://localhost:8080", "stage") :=
  (effective_config_precedence none none (some "stage") none cfgDemo
    (by decide) (by decide) (by decide) (by decide)).trans (by decide)

/-!
## Claim C7: 403 classification
-/

/-- C7 (confirmed): every 403 response, whatever its body, raises an
Auth-classified error (fixed exit code 3) whose message contains the
phrase `permission denied` (the source capitalises it as
`Permission denied`, so containment is stated on the lowercased
message). -/
theorem forbidden_classified (body : Option Json) (text : String) :
    handle_response 403 body text = .error (.auth msg403) ∧
    exitCodeOf (.auth msg403) = 3 ∧
    strHas (pyLower msg403) "permission denied" = true := by
  refine ⟨?_, rfl, by decide⟩
  simp [handle_response]

/-!
## Claim C8: RAG search query validation
-/

/-- C8 (confirmed): every `rag search` whose stripped query is shorter
than the 3-character minimum fails validation with a `UsageError`
(exit code 2) and issues no HTTP request — the outcome is decided
before `create_client` runs. -/
theorem rag_short_query (query collection : String) (topK : Int)
    (h : pyLen (pyStrip query) < MIN_SEARCH_QUERY_LENGTH) :
    (∃ m, ragSearch query collection topK = .usageErr m) ∧
    requestsOf (ragSearch query collection topK) = [] ∧
    ragSearchExit (ragSearch query collection topK) = some 2 := by
  by_cases h0 : query = "" ∨ pyStrip query = ""
  · have e : ragSearch query collection topK = .usageErr "Search query cannot be empty." := by
      simp [ragSearch, h0]
    exact ⟨⟨_, e⟩, by simp [e, requestsOf], by simp [e, ragSearchExit, exitCodeOf]⟩
  · have e : ragSearch query collection topK =
        .usageErr ("Search query must be at least " ++
          toString MIN_SEARCH_QUERY_LENGTH ++ " characters.") := by
      simp [ragSearch, h0, h]
    exact ⟨⟨_, e⟩, by simp [e, requestsOf], by simp [e, ragSearchExit, exitCodeOf]⟩

/-- Witness for C8: the query `"ab"` with collection `"x"`. -/
theorem rag_short_query_witness :
    pyLen (pyStrip "ab") < MIN_SEARCH_QUERY_LENGTH ∧
    requestsOf (ragSearch "ab" "x" 5) = [] ∧
    ragSearchExit (ragSearch "ab" "x" 5) = some 2 :=
  ⟨by decide, (rag_short_query "ab" "x" 5 (by decide)).2⟩

/-!
## Claim C9: configuration round trip
-/

/-- Validating a dumped profile recovers it. -/
theorem profile_validate_dump (p : ProfileConfig) :
    ProfileConfig.validate p.dump = some p := rfl

/-- Validating a dumped defaults section recovers it. -/
theorem defaults_validate_dump (d : DefaultsConfig) :
    DefaultsConfig.validate d.dump = some d := by
  rcases d with ⟨m, f, s, t⟩
  cases m <;> rfl

/-- Validating a dumped output section recovers it. -/
theorem output_validate_dump (o : OutputConfig) :
    OutputConfig.validate o.dump = some o := rfl

/-- Validating the dumped profile map recovers every entry in order. -/
theorem profiles_validate_dump (ps : List (String × ProfileConfig)) :
    validateProfiles (ps.map fun kv => (kv.1, kv.2.dump)) = some ps := by
  induction ps with
  | nil => rfl
  | cons kv ps ih =>
    simp [validateProfiles, profile_validate_dump, ih]

/-- C9 (confirmed): `save_config` followed by `load_config` is the
identity on every configuration, including ones holding multiple named
profiles — validation of the dumped document recovers the
configuration field for field. -/
theorem config_roundtrip (c : Config) :
    load_config (some (save_config c)) = some c := by
  rcases c with ⟨v, dp, ps, d, o⟩
  have h1 : load_config (some (save_config ⟨v, dp, ps, d, o⟩)) =
      Option.bind (validateProfiles (ps.map fun kv => (kv.1, kv.2.dump))) (fun prs =>
        Option.bind (DefaultsConfig.validate d.dump) (fun dd =>
          Option.bind (OutputConfig.validate o.dump) (fun oo =>
            some ⟨v, dp, prs, dd, oo⟩))) := rfl
  rw [h1, profiles_validate_dump, defaults_validate_dump, output_validate_dump]
  rfl

/-!
## Claim C10: token deletion is total and idempotent
-/

/-- After filtering out a key, looking it up yields nothing. -/
theorem lookup_filter_ne (key : String) :
    ∀ st : List (String × String),
      List.lookup key (st.filter fun kv => !(kv.1 == key)) = none := by
  intro st
  induction st with
  | nil => rfl
  | cons kv st ih =>
    simp only [List.filter]
    cases hkv : !(kv.1 == key) with
    | false => exact ih
    | true =>
      have hb : (kv.1 == key) = false := by
        cases hx : kv.1 == key
        · rfl
        · rw [hx] at hkv; simp at hkv
      have hne : key ≠ kv.1 := fun hh => by
        rw [beq_eq_false_iff_ne] at hb
        exact hb hh.symm
      simp only [List.lookup]
      rw [show (key == kv.1) = false from beq_eq_false_iff_ne.mpr hne]
      exact ih

/-- C10 (confirmed): `delete_token` never raises — a missing entry's
`PasswordDeleteError` is caught and the store is left unchanged — and
it is idempotent: deleting twice leaves the store exactly as deleting
once; consequently `auth logout` always exits 0. -/
theorem delete_token_idempotent (st : KeyringState) (profile uri : String) :
    delete_token st profile uri = .ok (deleteTokenState st profile uri) ∧
    deleteTokenState (deleteTokenState st profile uri) profile uri =
      deleteTokenState st profile uri ∧
    (List.lookup (profile ++ ":" ++ uri) st = none →
      delete_token st profile uri = .ok st) ∧
    (logout st profile uri).2.2 = 0 := by
  refine ⟨?_, ?_, ?_, ?_⟩
  · cases hlk : List.lookup (profile ++ ":" ++ uri) st <;>
      simp [delete_token, delete_password, deleteTokenState, hlk]
  · cases hlk : List.lookup (profile ++ ":" ++ uri) st with
    | none =>
      have h1 : deleteTokenState st profile uri = st := by
        simp [deleteTokenState, delete_token, delete_password, hlk]
      rw [h1]
      exact h1
    | some v =>
      have h1 : deleteTokenState st profile uri =
          st.filter (fun kv => !(kv.1 == profile ++ ":" ++ uri)) := by
        simp [deleteTokenState, delete_token, delete_password, hlk]
      have h2 := lookup_filter_ne (profile ++ ":" ++ uri) st
      rw [h1]
      simp [deleteTokenState, delete_token, delete_password, h2]
  · intro hnone
    simp [delete_token, delete_password, hnone]
  · cases hlk : List.lookup (profile ++ ":" ++ uri) st <;>
      simp [logout, delete_token, delete_password, hlk]

/-- Witness for C10: deleting from an empty store (no token stored)
succeeds silently and leaves the store unchanged. -/
theorem delete_token_idempotent_witness :
    List.lookup ("default" ++ ":" ++ defaultUri) ([] : KeyringState) = none ∧
    delete_token ([] : KeyringState) "default" defaultUri = .ok ([] : KeyringState) :=
  ⟨rfl, (delete_token_idempotent [] "default" defaultUri).2.2.1 rfl⟩

end OpenWebUI
